import Mathlib

/-!
Shallow embedding of the personal-AI-agent repository (batak_ollama.py and
the single-domain assistants under email/, pdf/, meeting/, websearch/),
with theorems settling the specification claims about conversation-history
management, the interactive loop, provider acquisition/teardown, the
tool-binding mode of the reasoning calls, and the startup credential checks.

Python strings are modelled as Lean `String`; the external reasoning call
(`ollama.chat` or the Gemini `generate_content`) is a parameter returning
`Except` so a raised exception is an `Except.error`.
-/

/-- One conversation-history entry, the dict
`\x7b"role": ..., "parts": [...]\x7d` appended by `process_user_request`
in batak_ollama.py. -/
structure Entry where
  role : String
  parts : List String
deriving Repr, DecidableEq

/-- One chat message, the dict `\x7b"role": ..., "content": ...\x7d`
produced by `build_prompt_from_history` and consumed by `ollama.chat`. -/
structure Message where
  role : String
  content : String
deriving Repr, DecidableEq

/-- Python `str.strip()` with no argument: remove leading and trailing
whitespace (modelled on the character list so it evaluates by kernel
reduction). -/
def pyStrip (s : String) : String :=
  ⟨(s.data.dropWhile Char.isWhitespace).rdropWhile Char.isWhitespace⟩

/-- Python `str.lower()` (the inputs compared here are ASCII). -/
def pyLower (s : String) : String := ⟨s.data.map Char.toLower⟩

/-- The role given to a message built from a history entry with role `r`:
the `if role == "user"` branch inside `build_prompt_from_history`
(batak_ollama.py lines 30-39). -/
def promptRole (r : String) : String := if r = "user" then "user" else "assistant"

/-- `build_prompt_from_history` (batak_ollama.py lines 24-40): the nested
`for entry in history: for part in entry["parts"]: messages.append(...)`
loop, as a fold appending one message per part. -/
def build_prompt_from_history (history : List Entry) : List Message :=
  history.foldl
    (fun messages entry =>
      entry.parts.foldl
        (fun messages part => messages ++ [⟨promptRole entry.role, part⟩])
        messages)
    []

/-- The messages contributed by a single history entry. -/
def entryMessages (entry : Entry) : List Message :=
  entry.parts.map (fun part => ⟨promptRole entry.role, part⟩)

theorem foldl_append_map {α β : Type} (f : α → β) :
    ∀ (l : List α) (acc : List β),
      l.foldl (fun ms p => ms ++ [f p]) acc = acc ++ l.map f := by
  intro l
  induction l with
  | nil => intro acc; simp
  | cons x xs ih => intro acc; simp [List.foldl_cons, ih]

theorem foldl_append_entry :
    ∀ (l : List Entry) (acc : List Message),
      l.foldl
        (fun messages entry =>
          entry.parts.foldl
            (fun messages part => messages ++ [⟨promptRole entry.role, part⟩])
            messages)
        acc = acc ++ l.flatMap entryMessages := by
  intro l
  induction l with
  | nil => intro acc; simp
  | cons e es ih =>
      intro acc
      simp only [List.foldl_cons, ih, List.flatMap_cons]
      rw [foldl_append_map (fun part => (⟨promptRole e.role, part⟩ : Message))]
      simp [entryMessages, List.append_assoc]

/-- Closed form: one message per part, in order. -/
theorem build_prompt_eq_flatMap (h : List Entry) :
    build_prompt_from_history h = h.flatMap entryMessages := by
  simpa using foldl_append_entry h []

theorem build_prompt_append (a b : List Entry) :
    build_prompt_from_history (a ++ b)
      = build_prompt_from_history a ++ build_prompt_from_history b := by
  simp [build_prompt_eq_flatMap]

/-- The record of keyword arguments of one `ollama.chat` invocation.
`tools` is `none` when the call site passes no `tools` keyword argument
(the call at batak_ollama.py lines 84-88 passes only `model` and
`messages`). -/
structure OllamaChatCall where
  model : String
  messages : List Message
  tools : Option (List String)
deriving Repr, DecidableEq

/-- Observable result of `process_user_request`: the returned text, the
conversation history afterwards, the `ollama.chat` call made, and the
(unused) `all_tools_desc` list the function computes. -/
structure ProcResult where
  response : String
  history : List Entry
  call : OllamaChatCall
  all_tools_desc : List String
deriving Repr, DecidableEq

/-- The `ollama.chat` invocation made at batak_ollama.py lines 84-88: only
the `model` and `messages` keyword arguments are passed (so `tools` is
`none`); `messages` is the system instruction prepended to the prompt
built from the updated history (lines 72-78). -/
def ollamaCall (system_instruction : String) (history1 : List Entry) :
    OllamaChatCall :=
  ⟨"gpt-oss-20b",
   ⟨"system", system_instruction⟩ :: build_prompt_from_history history1,
   none⟩

/-- `process_user_request` (batak_ollama.py lines 42-103).  The external
`ollama.chat` call is the parameter `chat`; a raised exception is
`Except.error e`, caught by the `try/except` and turned into the returned
`"Error calling Ollama: ..."` text.  `sessions` maps each session name to
the truthiness of its value, as tested by `if session:`. -/
def process_user_request (chat : OllamaChatCall → Except String String)
    (user_request : String) (sessions : List (String × Bool))
    (system_instruction : String) (conversation_history : List Entry) :
    ProcResult :=
  let history1 := conversation_history ++ [⟨"user", [pyStrip user_request]⟩]
  let all_tools_desc :=
    (sessions.filter (fun s => s.2)).map (fun s => s.1 ++ " tools available")
  let call : OllamaChatCall := ollamaCall system_instruction history1
  let outcome : String × List Entry :=
    match chat call with
    | .ok response_text => (response_text, history1 ++ [⟨"model", [response_text]⟩])
    | .error e => ("Error calling Ollama: " ++ e, history1)
  ⟨outcome.1, outcome.2, call, all_tools_desc⟩

/-- The sessions dictionary built in `main` (batak_ollama.py lines 259-264):
all four provider sessions present. -/
def batakSessions : List (String × Bool) :=
  [("pdf", true), ("email", true), ("calendar", true), ("websearch", true)]

/-- The `types.GenerateContentConfig` handed to the Gemini call
(email_assistant.py lines 33-37). -/
structure GenerateContentConfig where
  system_instruction : String
  temperature : ℚ
  tools : List String
deriving Repr, DecidableEq

/-- The record of arguments of one `generate_content` invocation. -/
structure GeminiCall where
  model : String
  contents : String
  config : GenerateContentConfig
deriving Repr, DecidableEq

/-- The signature appended to every request (email_assistant.py lines 27-28). -/
def signature_text : String :=
  "\n\nThis email has been sent by Tejas\x27 personal assistant Batak 🦆.\nRegards,\nBatak"

/-- The Gemini call constructed by `send_email_with_gemini`
(email_assistant.py lines 30-38): `tools=[session]` hands the MCP session
itself (named here by its identifier) into the call configuration. -/
def send_email_gemini_call (user_request : String) (session : String)
    (system_instruction : String) : GeminiCall :=
  ⟨"gemini-2.5-flash", pyStrip user_request ++ signature_text,
    ⟨system_instruction, 7/10, [session]⟩⟩

/-- `send_email_with_gemini` (email_assistant.py lines 14-39), parameterized
by the external `generate_content` call; returns `response.text`. -/
def send_email_with_gemini (generate : GeminiCall → Except String String)
    (user_request : String) (session : String) (system_instruction : String) :
    Except String String :=
  generate (send_email_gemini_call user_request session system_instruction)

theorem dropWhile_strip_eq {α : Type} (p : α → Bool) (l : List α) :
    List.dropWhile p (List.rdropWhile p (List.dropWhile p l))
      = List.rdropWhile p (List.dropWhile p l) := by
  rw [List.dropWhile_eq_self_iff]
  intro hl
  have hpre : List.rdropWhile p (List.dropWhile p l) <+: List.dropWhile p l :=
    List.rdropWhile_prefix p (List.dropWhile p l)
  have hlen : 0 < (List.dropWhile p l).length := lt_of_lt_of_le hl hpre.length_le
  have hget := hpre.getElem (n := 0) hl
  simp only [List.get_eq_getElem, hget]
  have := List.dropWhile_get_zero_not p l hlen
  simpa [List.get_eq_getElem] using this

/-- Stripping is idempotent, so the second `strip()` inside
`process_user_request` leaves the loop-stripped input unchanged. -/
theorem pyStrip_idem (s : String) : pyStrip (pyStrip s) = pyStrip s := by
  simp only [pyStrip]
  rw [dropWhile_strip_eq, List.rdropWhile_idempotent]

/-- One visible output of an interactive-loop iteration. -/
inductive Out where
  | response (text : String)
  | invalidRequest
  | goodbye
deriving Repr, DecidableEq

/-- The interactive loop of `main` (batak_ollama.py lines 277-303), fed the
lines of standard input in order; returns the final conversation history
and the printed outputs, one per iteration.  Each iteration strips the
line; a stripped line whose lowering is `"quit"` breaks out; an empty
stripped line is rejected; otherwise `process_user_request` runs (its
internal `try/except` already converts reasoning errors into returned
text, so the `try/except` around the call in the loop body passes the
result through). -/
def interactive_loop (chat : OllamaChatCall → Except String String)
    (sessions : List (String × Bool)) (system_instruction : String) :
    List String → List Entry → List Entry × List Out
  | [], history => (history, [])
  | raw :: rest, history =>
    let user_request := pyStrip raw
    if pyLower user_request = "quit" then (history, [Out.goodbye])
    else if user_request = "" then
      let r := interactive_loop chat sessions system_instruction rest history
      (r.1, Out.invalidRequest :: r.2)
    else
      let p := process_user_request chat user_request sessions system_instruction history
      let r := interactive_loop chat sessions system_instruction rest p.history
      (r.1, Out.response p.response :: r.2)

/-- Number of iterations the loop performs on the given input lines,
determined by the input alone (one iteration per line up to and including
the quit sentinel). -/
def loopIterations : List String → Nat
  | [] => 0
  | raw :: rest =>
    if pyLower (pyStrip raw) = "quit" then 1 else 1 + loopIterations rest

/-- The stripped texts of the input lines the loop hands to
`process_user_request`, in order: lines before the quit sentinel whose
stripped text is nonempty. -/
def processedInputs : List String → List String
  | [] => []
  | raw :: rest =>
    if pyLower (pyStrip raw) = "quit" then []
    else if pyStrip raw = "" then processedInputs rest
    else pyStrip raw :: processedInputs rest

/-- An observable event of provider startup/teardown. -/
inductive Ev where
  | opened (name : String)
  | closed (name : String)
  | failed (name : String)
deriving Repr, DecidableEq

/-- External outcomes for one provider: whether the `stdio_client` context
entry, the `ClientSession` context entry, and the
`initialize()`/`list_tools()` handshake succeed. -/
structure ProviderOutcome where
  transportOk : Bool
  sessionOk : Bool
  handshakeOk : Bool
deriving Repr, DecidableEq

/-- The nested `async with` acquisition in `main` (batak_ollama.py lines
221-264): for each provider in order, enter the `stdio_client` transport,
enter the `ClientSession`, run the handshake, and nest the rest inside.
Exiting a `with` level emits a `closed` event for the resource it entered;
an exception at any point unwinds the levels already entered, innermost
first.  Returns the event trace and whether an exception propagates out of
the whole block (to the `try/except` at lines 221/305-308).  `bodyRaises`
says whether the innermost interactive loop raises. -/
def runProviders (bodyRaises : Bool) :
    List (String × ProviderOutcome) → List Ev × Bool
  | [] => ([], bodyRaises)
  | (name, o) :: rest =>
    if !o.transportOk then ([Ev.failed (name ++ "_transport")], true)
    else if !o.sessionOk then
      ([Ev.opened (name ++ "_transport"), Ev.failed (name ++ "_session"),
        Ev.closed (name ++ "_transport")], true)
    else if !o.handshakeOk then
      ([Ev.opened (name ++ "_transport"), Ev.opened (name ++ "_session"),
        Ev.failed (name ++ "_handshake"),
        Ev.closed (name ++ "_session"), Ev.closed (name ++ "_transport")], true)
    else
      let r := runProviders bodyRaises rest
      ([Ev.opened (name ++ "_transport"), Ev.opened (name ++ "_session")]
        ++ r.1
        ++ [Ev.closed (name ++ "_session"), Ev.closed (name ++ "_transport")],
       r.2)

/-- The provider order of batak_ollama.py: pdf, email, calendar, websearch. -/
def batakProviderNames : List String := ["pdf", "email", "calendar", "websearch"]

/-- The whole acquisition block of the unified assistant, with the given
per-provider outcomes. -/
def batak_acquisition (outcome : String → ProviderOutcome) (bodyRaises : Bool) :
    List Ev × Bool :=
  runProviders bodyRaises (batakProviderNames.map (fun n => (n, outcome n)))

/-- Resources opened, in trace order. -/
def opensOf (t : List Ev) : List String :=
  t.filterMap (fun e => match e with | Ev.opened n => some n | _ => none)

/-- Resources closed, in trace order. -/
def closesOf (t : List Ev) : List String :=
  t.filterMap (fun e => match e with | Ev.closed n => some n | _ => none)

theorem runProviders_closes_reverse (bodyRaises : Bool) :
    ∀ ls : List (String × ProviderOutcome),
      closesOf (runProviders bodyRaises ls).1
        = (opensOf (runProviders bodyRaises ls).1).reverse := by
  intro ls
  induction ls with
  | nil => simp [runProviders, opensOf, closesOf]
  | cons hd tl ih =>
    obtain ⟨name, o⟩ := hd
    simp only [opensOf, closesOf] at ih
    by_cases h1 : o.transportOk
    · by_cases h2 : o.sessionOk
      · by_cases h3 : o.handshakeOk
        · simp [runProviders, h1, h2, h3, opensOf, closesOf,
            List.filterMap_append, ih]
        · simp [runProviders, h1, h2, h3, opensOf, closesOf]
      · simp [runProviders, h1, h2, opensOf, closesOf]
    · simp [runProviders, h1, opensOf, closesOf]

/-- An event at the top level of a script. -/
inductive TopEv where
  | printedKeyFound (key : String)
  | printedMissingError (keys : List String)
  | ranMain
  | returnedEarly
  | providerEv (e : Ev)
deriving Repr, DecidableEq

/-- Python truthiness of `os.getenv(key)`: false when the variable is unset
or set to the empty string. -/
def getenvTruthy (env : String → Option String) (key : String) : Bool :=
  match env key with
  | none => false
  | some v => v != ""

/-- `main` of batak_ollama.py (lines 105-308): the Ollama availability check
(lines 110-127) either passes or the `except` prints and returns early;
after it, the provider acquisition (and, innermost, the interactive loop)
runs. -/
def batak_main (ollamaOk : Bool) (outcome : String → ProviderOutcome)
    (bodyRaises : Bool) : List TopEv :=
  if !ollamaOk then [TopEv.returnedEarly]
  else (batak_acquisition outcome bodyRaises).1.map TopEv.providerEv

/-- The `__main__` guard of batak_ollama.py (lines 310-335): builds
`missing_keys` from `BRIGHT_DATA_API_KEY`, prints the error block when it
is nonempty, and then calls `asyncio.run(main())` unconditionally. -/
def batak_toplevel (env : String → Option String) (ollamaOk : Bool)
    (outcome : String → ProviderOutcome) (bodyRaises : Bool) : List TopEv :=
  let missing_keys : List String :=
    if getenvTruthy env "BRIGHT_DATA_API_KEY" then [] else ["BRIGHT_DATA_API_KEY"]
  (if getenvTruthy env "BRIGHT_DATA_API_KEY"
    then [TopEv.printedKeyFound "BRIGHT_DATA_API_KEY"] else [])
  ++ (if missing_keys.isEmpty then [] else [TopEv.printedMissingError missing_keys])
  ++ [TopEv.ranMain] ++ batak_main ollamaOk outcome bodyRaises

/-- `main` of email_assistant.py (lines 42-116): one provider connection
(the email MCP server), then the loop. -/
def email_main (outcome : ProviderOutcome) (bodyRaises : Bool) : List TopEv :=
  (runProviders bodyRaises [("email", outcome)]).1.map TopEv.providerEv

/-- The `__main__` guard of email_assistant.py (lines 119-127): when
`GEMINI_API_KEY` is missing, the error is printed and `main` is never run;
otherwise `asyncio.run(main())` runs in the `else` branch. -/
def email_toplevel (env : String → Option String) (outcome : ProviderOutcome)
    (bodyRaises : Bool) : List TopEv :=
  if !getenvTruthy env "GEMINI_API_KEY" then
    [TopEv.printedMissingError ["GEMINI_API_KEY"]]
  else
    [TopEv.printedKeyFound "GEMINI_API_KEY", TopEv.ranMain]
      ++ email_main outcome bodyRaises

/-- `all_tools_desc` as computed (and then never used) at lines 66-70. -/
def toolsDesc (sessions : List (String × Bool)) : List String :=
  (sessions.filter (fun s => s.2)).map (fun s => s.1 ++ " tools available")

theorem process_user_request_ok (chat : OllamaChatCall → Except String String)
    (u : String) (sessions : List (String × Bool)) (si : String)
    (h : List Entry) (t : String)
    (hc : chat (ollamaCall si (h ++ [⟨"user", [pyStrip u]⟩])) = Except.ok t) :
    process_user_request chat u sessions si h
      = ⟨t, h ++ [⟨"user", [pyStrip u]⟩, ⟨"model", [t]⟩],
         ollamaCall si (h ++ [⟨"user", [pyStrip u]⟩]), toolsDesc sessions⟩ := by
  simp [process_user_request, toolsDesc, hc]

theorem process_user_request_err (chat : OllamaChatCall → Except String String)
    (u : String) (sessions : List (String × Bool)) (si : String)
    (h : List Entry) (e : String)
    (hc : chat (ollamaCall si (h ++ [⟨"user", [pyStrip u]⟩])) = Except.error e) :
    process_user_request chat u sessions si h
      = ⟨"Error calling Ollama: " ++ e, h ++ [⟨"user", [pyStrip u]⟩],
         ollamaCall si (h ++ [⟨"user", [pyStrip u]⟩]), toolsDesc sessions⟩ := by
  simp [process_user_request, toolsDesc, hc]

/-- The parts lists of the user-role entries of a history segment. -/
def userParts (es : List Entry) : List (List String) :=
  (es.filter (fun en => en.role == "user")).map Entry.parts

theorem interactive_loop_outputs (chat : OllamaChatCall → Except String String)
    (sessions : List (String × Bool)) (si : String) :
    ∀ (inputs : List String) (h : List Entry),
      ((interactive_loop chat sessions si inputs h).2).length
        = loopIterations inputs := by
  intro inputs
  induction inputs with
  | nil => intro h; simp [interactive_loop, loopIterations]
  | cons raw rest ih =>
    intro h
    by_cases hq : pyLower (pyStrip raw) = "quit"
    · simp [interactive_loop, loopIterations, hq]
    · by_cases he : pyStrip raw = ""
      · have h0 : ¬ pyLower "" = "quit" := by decide
        simp [interactive_loop, loopIterations, hq, he, h0, ih]
        omega
      · simp [interactive_loop, loopIterations, hq, he, ih]
        omega

theorem loop_invariant (chat : OllamaChatCall → Except String String)
    (sessions : List (String × Bool)) (si : String) :
    ∀ (inputs : List String) (h : List Entry),
      ∃ t, (interactive_loop chat sessions si inputs h).1 = h ++ t
        ∧ userParts t = (processedInputs inputs).map (fun s => [s])
        ∧ (processedInputs inputs).length ≤ t.length
        ∧ ∀ en ∈ t,
            (∃ raw, raw ∈ inputs ∧ en = ⟨"user", [pyStrip raw]⟩)
            ∨ (∃ c tx, chat c = Except.ok tx ∧ en = ⟨"model", [tx]⟩) := by
  intro inputs
  induction inputs with
  | nil =>
    intro h
    exact ⟨[], by simp [interactive_loop], by simp [userParts, processedInputs],
      by simp [processedInputs], by simp⟩
  | cons raw rest ih =>
    intro h
    by_cases hq : pyLower (pyStrip raw) = "quit"
    · refine ⟨[], ?_, ?_, ?_, ?_⟩ <;>
        simp [interactive_loop, hq, userParts, processedInputs]
    · by_cases he : pyStrip raw = ""
      · have h0 : ¬ pyLower "" = "quit" := by decide
        obtain ⟨t, ht, hu, hl, hall⟩ := ih h
        refine ⟨t, ?_, ?_, ?_, ?_⟩
        · simp [interactive_loop, hq, he, h0, ht]
        · simpa [processedInputs, hq, he] using hu
        · simpa [processedInputs, hq, he] using hl
        · intro en hen
          rcases hall en hen with ⟨r, hr, he2⟩ | h2
          · exact Or.inl ⟨r, List.mem_cons_of_mem _ hr, he2⟩
          · exact Or.inr h2
      · have hid : pyStrip (pyStrip raw) = pyStrip raw := pyStrip_idem raw
        cases hc : chat (ollamaCall si (h ++ [⟨"user", [pyStrip raw]⟩])) with
        | ok tx =>
          have hp := process_user_request_ok chat (pyStrip raw) sessions si h tx
            (by rw [hid]; exact hc)
          rw [hid] at hp
          obtain ⟨t, ht, hu, hl, hall⟩ :=
            ih (h ++ [⟨"user", [pyStrip raw]⟩, ⟨"model", [tx]⟩])
          refine ⟨⟨"user", [pyStrip raw]⟩ :: ⟨"model", [tx]⟩ :: t, ?_, ?_, ?_, ?_⟩
          · simp only [interactive_loop, hq, he, if_false, if_pos, hp]
            simp [hq, he, ht]
          · simp [userParts, processedInputs, hq, he] at hu ⊢
            exact hu
          · simp only [processedInputs, hq, he, if_neg, if_false] at hl ⊢
            simp at hl ⊢
            omega
          · intro en hen
            simp only [List.mem_cons] at hen
            rcases hen with hen | hen | hen
            · exact Or.inl ⟨raw, List.mem_cons_self raw rest, hen⟩
            · exact Or.inr ⟨_, tx, hc, hen⟩
            · rcases hall en hen with ⟨r, hr, he2⟩ | h2
              · exact Or.inl ⟨r, List.mem_cons_of_mem _ hr, he2⟩
              · exact Or.inr h2
        | error e =>
          have hp := process_user_request_err chat (pyStrip raw) sessions si h e
            (by rw [hid]; exact hc)
          rw [hid] at hp
          obtain ⟨t, ht, hu, hl, hall⟩ := ih (h ++ [⟨"user", [pyStrip raw]⟩])
          refine ⟨⟨"user", [pyStrip raw]⟩ :: t, ?_, ?_, ?_, ?_⟩
          · simp only [interactive_loop, hq, he, if_false, if_pos, hp]
            simp [hq, he, ht]
          · simp [userParts, processedInputs, hq, he] at hu ⊢
            exact hu
          · simp only [processedInputs, hq, he, if_neg, if_false] at hl ⊢
            simp at hl ⊢
            omega
          · intro en hen
            simp only [List.mem_cons] at hen
            rcases hen with hen | hen
            · exact Or.inl ⟨raw, List.mem_cons_self raw rest, hen⟩
            · rcases hall en hen with ⟨r, hr, he2⟩ | h2
              · exact Or.inl ⟨r, List.mem_cons_of_mem _ hr, he2⟩
              · exact Or.inr h2

/-- Claim C1: the claim says a missing required credential variable is a
startup-time fatal error and no provider subprocess is ever launched.
With `BRIGHT_DATA_API_KEY` unset, batak_ollama.py prints the
missing-variable error block but still calls `asyncio.run(main())`
unconditionally, and `main` (with Ollama reachable) launches the pdf
provider and the rest and enters the loop; email_assistant.py, in
contrast, never runs `main` when `GEMINI_API_KEY` is missing.  This
theorem evaluates both embedded top levels at that failing input. -/
theorem c1_missing_key_still_launches_providers :
    (TopEv.printedMissingError ["BRIGHT_DATA_API_KEY"]
        ∈ batak_toplevel (fun _ => none) true (fun _ => ⟨true, true, true⟩) false)
    ∧ (TopEv.ranMain
        ∈ batak_toplevel (fun _ => none) true (fun _ => ⟨true, true, true⟩) false)
    ∧ (TopEv.providerEv (Ev.opened "pdf_transport")
        ∈ batak_toplevel (fun _ => none) true (fun _ => ⟨true, true, true⟩) false)
    ∧ email_toplevel (fun _ => none) ⟨true, true, true⟩ false
        = [TopEv.printedMissingError ["GEMINI_API_KEY"]] := by
  refine ⟨?_, ?_, ?_, ?_⟩ <;> decide

/-- Claim C2, counterexample: in the unified assistant the reasoning call
receives no tool capabilities at all — `ollama.chat` is invoked with
`tools = none` even with all four provider sessions present (the
`all_tools_desc` strings are computed and then dropped), refuting the
claim at the concrete request "hello". -/
theorem c2_unified_call_without_tools :
    (process_user_request (fun _ => Except.ok "OK") "hello" batakSessions
        "sys" []).all_tools_desc
      = ["pdf tools available", "email tools available",
         "calendar tools available", "websearch tools available"]
    ∧ (process_user_request (fun _ => Except.ok "OK") "hello" batakSessions
        "sys" []).call.tools = none :=
  ⟨rfl, rfl⟩

/-- Claim C2 (amended): in Mode B as implemented by the Gemini email
assistant, the session's tool capabilities are handed into the reasoning
call configuration (`tools=[session]`) and only final text is returned;
the unified assistant's reasoning call instead receives no tools at all —
`ollama.chat` gets only the model name and the messages. -/
theorem c2_mode_b_binding (u sess si req sysi : String)
    (generate : GeminiCall → Except String String)
    (chat : OllamaChatCall → Except String String)
    (sessions : List (String × Bool)) (h : List Entry) :
    (send_email_gemini_call u sess si).config.tools = [sess]
    ∧ send_email_with_gemini generate u sess si
        = generate (send_email_gemini_call u sess si)
    ∧ (process_user_request chat req sessions sysi h).call.tools = none
    ∧ (process_user_request chat req sessions sysi h).call.model = "gpt-oss-20b" :=
  ⟨rfl, rfl, rfl, rfl⟩

/-- Claim C3: the number of loop iterations is determined by the input
lines alone — no reasoning-step outcome, error included, ends the session
early — and a reasoning error on a processed utterance yields the visible
`"Error calling Ollama: ..."` text as that iteration's output, after
which the loop continues on the remaining input with only the user turn
appended. -/
theorem c3_reasoning_errors_nonfatal
    (chat : OllamaChatCall → Except String String)
    (sessions : List (String × Bool)) (si : String)
    (inputs : List String) (h : List Entry)
    (e raw : String) (rest : List String) (h2 : List Entry)
    (hq : pyLower (pyStrip raw) ≠ "quit") (he : pyStrip raw ≠ "") :
    ((interactive_loop chat sessions si inputs h).2).length = loopIterations inputs
    ∧ interactive_loop (fun _ => Except.error e) sessions si (raw :: rest) h2
        = ((interactive_loop (fun _ => Except.error e) sessions si rest
              (h2 ++ [⟨"user", [pyStrip raw]⟩])).1,
           Out.response ("Error calling Ollama: " ++ e)
             :: (interactive_loop (fun _ => Except.error e) sessions si rest
                  (h2 ++ [⟨"user", [pyStrip raw]⟩])).2) := by
  constructor
  · exact interactive_loop_outputs chat sessions si inputs h
  · have hid := pyStrip_idem raw
    have hp := process_user_request_err (fun _ => Except.error e) (pyStrip raw)
      sessions si h2 e rfl
    rw [hid] at hp
    simp [interactive_loop, hq, he, hp]

/-- Witness for the nonfatal-error theorem at the input line "hi" and an
always-failing reasoning step. -/
theorem c3_reasoning_errors_nonfatal_witness :
    pyLower (pyStrip "hi") ≠ "quit" ∧ pyStrip "hi" ≠ ""
    ∧ (((interactive_loop (fun _ => Except.ok "OK") [] "" [] []).2).length
          = loopIterations []
      ∧ interactive_loop (fun _ => Except.error "boom") [] "" ["hi"] []
          = ((interactive_loop (fun _ => Except.error "boom") [] ""
                ([] : List String) ([] ++ [⟨"user", [pyStrip "hi"]⟩])).1,
             Out.response ("Error calling Ollama: " ++ "boom")
               :: (interactive_loop (fun _ => Except.error "boom") [] ""
                    ([] : List String) ([] ++ [⟨"user", [pyStrip "hi"]⟩])).2)) :=
  ⟨by decide, by decide,
    c3_reasoning_errors_nonfatal (fun _ => Except.ok "OK") [] "" [] []
      "boom" "hi" [] [] (by decide) (by decide)⟩

/-- Claim C4: whenever an exception propagates out of the nested
acquisition block (transport entry, session entry, handshake, or an error
raised from inside the session body), the closed resources are exactly
the opened ones in strict reverse order, so nothing stays open. -/
theorem c4_teardown_reverse_on_exception (outcome : String → ProviderOutcome)
    (bodyRaises : Bool)
    (hfail : (batak_acquisition outcome bodyRaises).2 = true) :
    closesOf (batak_acquisition outcome bodyRaises).1
      = (opensOf (batak_acquisition outcome bodyRaises).1).reverse
    ∧ ∀ n, n ∈ opensOf (batak_acquisition outcome bodyRaises).1 →
        n ∈ closesOf (batak_acquisition outcome bodyRaises).1 := by
  have hrev : closesOf (batak_acquisition outcome bodyRaises).1
      = (opensOf (batak_acquisition outcome bodyRaises).1).reverse := by
    unfold batak_acquisition
    exact runProviders_closes_reverse bodyRaises _
  refine ⟨hrev, fun n hn => ?_⟩
  rw [hrev]
  simpa using hn

/-- The outcome in which the calendar provider transport fails to enter. -/
def calFailOutcome : String → ProviderOutcome :=
  fun n => if n = "calendar" then ⟨false, true, true⟩ else ⟨true, true, true⟩

/-- Witness for the teardown theorem: the calendar transport fails; the
pdf and email connections are torn down last-opened-first. -/
theorem c4_teardown_reverse_on_exception_witness :
    (batak_acquisition calFailOutcome false).2 = true
    ∧ (closesOf (batak_acquisition calFailOutcome false).1
        = (opensOf (batak_acquisition calFailOutcome false).1).reverse
      ∧ ∀ n, n ∈ opensOf (batak_acquisition calFailOutcome false).1 →
          n ∈ closesOf (batak_acquisition calFailOutcome false).1) :=
  ⟨by decide, c4_teardown_reverse_on_exception calFailOutcome false (by decide)⟩

/-- Claim C5: after any run of the loop, the conversation history is the
initial history with new entries appended at the tail (never reordered),
the user turns among them are exactly the processed utterances in input
order, the history grows by at least one turn per processed utterance,
and consecutive same-role turns are legal — a run with a failing
reasoning step produces two adjacent user turns. -/
theorem c5_history_chronological_append
    (chat : OllamaChatCall → Except String String)
    (sessions : List (String × Bool)) (si : String)
    (inputs : List String) (h : List Entry) :
    (∃ t, (interactive_loop chat sessions si inputs h).1 = h ++ t
        ∧ userParts t = (processedInputs inputs).map (fun s => [s])
        ∧ (processedInputs inputs).length ≤ t.length)
    ∧ (interactive_loop (fun _ => Except.error "boom") [] "" ["a", "b"] []).1
        = [⟨"user", ["a"]⟩, ⟨"user", ["b"]⟩] := by
  constructor
  · obtain ⟨t, ht, hu, hl, _⟩ := loop_invariant chat sessions si inputs h
    exact ⟨t, ht, hu, hl⟩
  · decide

/-- Claim C6: every entry the loop adds to the history is either a user
turn holding a processed utterance or a model turn holding a reasoning
response; nothing else — in particular no raw tool traffic — is ever
stored (the embedded `Entry` has no tool-call field because
batak_ollama.py stores none). -/
theorem c6_only_user_model_turns
    (chat : OllamaChatCall → Except String String)
    (sessions : List (String × Bool)) (si : String)
    (inputs : List String) (h : List Entry) :
    ∀ en ∈ ((interactive_loop chat sessions si inputs h).1).drop h.length,
      (∃ raw, raw ∈ inputs ∧ en = ⟨"user", [pyStrip raw]⟩)
      ∨ (∃ c tx, chat c = Except.ok tx ∧ en = ⟨"model", [tx]⟩) := by
  obtain ⟨t, ht, _, _, hall⟩ := loop_invariant chat sessions si inputs h
  intro en hen
  rw [ht, List.drop_left] at hen
  exact hall en hen

/-- Witness for the turns theorem: the user turn produced by input "hi". -/
theorem c6_only_user_model_turns_witness :
    ((⟨"user", ["hi"]⟩ : Entry)
        ∈ ((interactive_loop (fun _ => Except.ok "OK") [] "" ["hi"] []).1).drop
            ([] : List Entry).length)
    ∧ ((∃ raw, raw ∈ ["hi"]
          ∧ (⟨"user", ["hi"]⟩ : Entry) = ⟨"user", [pyStrip raw]⟩)
      ∨ (∃ c : OllamaChatCall, ∃ tx : String,
          (Except.ok "OK" : Except String String) = Except.ok tx
          ∧ (⟨"user", ["hi"]⟩ : Entry) = ⟨"model", [tx]⟩)) :=
  ⟨by decide,
    c6_only_user_model_turns (fun _ => Except.ok "OK") [] "" ["hi"] []
      ⟨"user", ["hi"]⟩ (by decide)⟩

/-- Claim C7: with a scripted reasoning step that always returns the final
text "OK" and no tool call, processing the utterance "hello" appends
exactly one user turn "hello" and one assistant (role `"model"`) turn
"OK", and returns "OK". -/
theorem c7_scripted_ok_turns (h : List Entry)
    (sessions : List (String × Bool)) (si : String) :
    (process_user_request (fun _ => Except.ok "OK") "hello" sessions si h).history
      = h ++ [⟨"user", ["hello"]⟩, ⟨"model", ["OK"]⟩]
    ∧ (process_user_request (fun _ => Except.ok "OK") "hello" sessions si h).response
      = "OK" := by
  have hs : pyStrip "hello" = "hello" := by decide
  have hp := process_user_request_ok (fun _ => Except.ok "OK") "hello"
    sessions si h "OK" rfl
  rw [hs] at hp
  rw [hp]
  exact ⟨rfl, rfl⟩

/-- Claim C8: when the reasoning call raises, `process_user_request`
returns the error text but leaves the history with only the user turn
appended — the history ends in a user turn, and the prompt any future
reasoning call builds from it contains the user request but not the
error message. -/
theorem c8_error_not_stored (e req si : String)
    (sessions : List (String × Bool)) (h : List Entry) :
    (process_user_request (fun _ => Except.error e) req sessions si h).response
      = "Error calling Ollama: " ++ e
    ∧ (process_user_request (fun _ => Except.error e) req sessions si h).history
      = h ++ [⟨"user", [pyStrip req]⟩]
    ∧ build_prompt_from_history
        (process_user_request (fun _ => Except.error e) req sessions si h).history
      = build_prompt_from_history h ++ [⟨"user", pyStrip req⟩] := by
  have hp := process_user_request_err (fun _ => Except.error e) req sessions si h e rfl
  rw [hp]
  refine ⟨rfl, rfl, ?_⟩
  rw [build_prompt_append]
  simp [build_prompt_eq_flatMap, entryMessages, promptRole]

/-- Claim C9: `build_prompt_from_history` yields one message per part of
each entry, in entry and part order; a message gets role `"user"` exactly
when the entry role is `"user"`, and every other entry role (including
`"model"` and `"system"`) is mapped to `"assistant"`. -/
theorem c9_build_prompt_roles (h : List Entry) :
    build_prompt_from_history h = h.flatMap entryMessages
    ∧ ∀ r, (promptRole r = "user" ↔ r = "user")
         ∧ (promptRole r = "assistant" ↔ r ≠ "user") := by
  refine ⟨build_prompt_eq_flatMap h, fun r => ⟨?_, ?_⟩⟩ <;>
    by_cases hr : r = "user" <;> simp [promptRole, hr]

/-- Claim C10: a line whose stripped, lowered text is "quit" ends the loop
at once, leaving the history untouched (no user turn for it); a line that
strips to the empty string is rejected and also adds no turn; "QUIT" and
"  Quit  " both hit the sentinel. -/
theorem c10_quit_sentinel (chat : OllamaChatCall → Except String String)
    (sessions : List (String × Bool)) (si : String)
    (raw : String) (rest : List String) (h : List Entry)
    (hq : pyLower (pyStrip raw) = "quit") :
    (interactive_loop chat sessions si (raw :: rest) h = (h, [Out.goodbye]))
    ∧ (∀ (ws : String) (rest2 : List String) (h2 : List Entry),
        pyStrip ws = "" →
          interactive_loop chat sessions si (ws :: rest2) h2
            = ((interactive_loop chat sessions si rest2 h2).1,
               Out.invalidRequest :: (interactive_loop chat sessions si rest2 h2).2))
    ∧ pyLower (pyStrip "QUIT") = "quit"
    ∧ pyLower (pyStrip "  Quit  ") = "quit" := by
  refine ⟨?_, ?_, by decide, by decide⟩
  · simp [interactive_loop, hq]
  · intro ws rest2 h2 hws
    have h0 : ¬ pyLower "" = "quit" := by decide
    simp [interactive_loop, hws, h0]

/-- Witness for the quit-sentinel theorem at the line "  Quit  ". -/
theorem c10_quit_sentinel_witness :
    pyLower (pyStrip "  Quit  ") = "quit"
    ∧ ((interactive_loop (fun _ => Except.ok "OK") [] "" ["  Quit  "] []
          = ([], [Out.goodbye]))
      ∧ (∀ (ws : String) (rest2 : List String) (h2 : List Entry),
          pyStrip ws = "" →
            interactive_loop (fun _ => Except.ok "OK") [] "" (ws :: rest2) h2
              = ((interactive_loop (fun _ => Except.ok "OK") [] "" rest2 h2).1,
                 Out.invalidRequest
                   :: (interactive_loop (fun _ => Except.ok "OK") [] "" rest2 h2).2))
      ∧ pyLower (pyStrip "QUIT") = "quit"
      ∧ pyLower (pyStrip "  Quit  ") = "quit") :=
  ⟨by decide,
    c10_quit_sentinel (fun _ => Except.ok "OK") [] "" "  Quit  " [] [] (by decide)⟩
